import Mathlib

/-!
Shallow embedding of `py_adsb_historical_data_client` (cache.py, historical.py)
and proofs of the specification claims.

Conventions of the embedding:
* Python `bytes` is `List Nat` (one `Nat` per byte).
* Python `datetime` is a record of its calendar/time fields; the code only
  reads `year`, `month`, `day`, `hour`, `minute` and rewrites `minute`,
  `second`, `microsecond` via `replace`, so these fields suffice.
* The filesystem is an association list from full path strings to byte blobs;
  `write` conses (the newest entry shadows older ones), `read` takes the first
  match, which models overwrite-on-write exactly.
* HTTP is a pure oracle `fetch : String → FetchResult`; a download call is a
  pure function of the cache arguments, the filesystem and the oracle, and it
  reports the number of network requests it made.
* The external decoders of `pyreadsb` are opaque: functions that consume
  decoded records take the decoded record list as a parameter.
-/

namespace ADSB

/-- Python `bytes`: a sequence of byte values. -/
abbrev Bytes := List Nat

/-- The fields of a Python `datetime` that the code reads or rewrites. -/
structure PyDateTime where
  year : Nat
  month : Nat
  day : Nat
  hour : Nat
  minute : Nat
  second : Nat
  microsecond : Nat
deriving DecidableEq, Repr

/-- Zero-padding to 2 digits, as `strftime` does for `%m` and `%d`. -/
def pad2 (n : Nat) : String :=
  if n < 10 then "0" ++ toString n else toString n

/-- Zero-padding to 4 digits, as `strftime` does for `%Y`. -/
def pad4 (n : Nat) : String :=
  if n < 10 then "000" ++ toString n
  else if n < 100 then "00" ++ toString n
  else if n < 1000 then "0" ++ toString n
  else toString n

/-- `timestamp.strftime("%Y/%m/%d")` from `cache.py` and `historical.py`. -/
def strftimeYMD (t : PyDateTime) : String :=
  pad4 t.year ++ "/" ++ pad2 t.month ++ "/" ++ pad2 t.day

/-- `timestamp.hour * 2 + (timestamp.minute // 30)`: the heatmap filename stem
(`Cache._get_heatmap_path`, `download_heatmap`). -/
def heatmapBucket (t : PyDateTime) : Nat :=
  t.hour * 2 + t.minute / 30

/-- Python `s.lower()`: lowercase the string character by character. -/
def pyLower (s : String) : String :=
  String.mk (s.data.map Char.toLower)

/-- Python `s[-2:]` on a string: the last two characters, or the whole string
when it is shorter than two characters. -/
def lastTwoChars (s : String) : String :=
  String.mk (s.data.drop (s.data.length - 2))

/-- `ADSBEXCHANGE_HISTORICAL_DATA_URL` from `historical.py`. -/
def ADSBEXCHANGE_HISTORICAL_DATA_URL : String :=
  "https://globe.adsbexchange.com/globe_history/"

/-- The filesystem: full path strings mapped to byte blobs. Newest write first. -/
abbrev FileSystem := List (String × Bytes)

/-- `Path.read_bytes` wrapped in the `except FileNotFoundError: return None`
pattern of `Cache.get_heatmap` / `Cache.get_trace`. -/
def fsRead (fs : FileSystem) (path : String) : Option Bytes :=
  match fs.find? (fun kv => kv.1 == path) with
  | some kv => some kv.2
  | none => none

/-- `path.parent.mkdir(...)` followed by `path.write_bytes(data)`: directories
are implicit in the path-keyed map, and the new entry shadows any prior one. -/
def fsWrite (fs : FileSystem) (path : String) (data : Bytes) : FileSystem :=
  (path, data) :: fs

/-- A `Cache` instance holds only its root directory path (`self._cache_path`). -/
structure Cache where
  cache_path : String
deriving DecidableEq, Repr

/-- `Cache._get_heatmap_path`. -/
def Cache.get_heatmap_path (c : Cache) (t : PyDateTime) : String :=
  c.cache_path ++ "/heatmaps/" ++ strftimeYMD t ++ "/" ++
    toString (heatmapBucket t) ++ ".bin.ttf"

/-- `Cache._get_trace_path`: `icao.lower()[-2:]` subfolder and
`trace_full_{icao.lower()}.json` filename. -/
def Cache.get_trace_path (c : Cache) (icao : String) (t : PyDateTime) : String :=
  c.cache_path ++ "/traces/" ++ strftimeYMD t ++ "/" ++
    lastTwoChars (pyLower icao) ++ "/trace_full_" ++ pyLower icao ++ ".json"

/-- `Cache.get_heatmap`: read, `None` on a missing file. -/
def Cache.get_heatmap (c : Cache) (fs : FileSystem) (t : PyDateTime) : Option Bytes :=
  fsRead fs (c.get_heatmap_path t)

/-- `Cache.put_heatmap`: create parents, write bytes. -/
def Cache.put_heatmap (c : Cache) (fs : FileSystem) (t : PyDateTime) (data : Bytes) :
    FileSystem :=
  fsWrite fs (c.get_heatmap_path t) data

/-- `Cache.get_trace`. -/
def Cache.get_trace (c : Cache) (fs : FileSystem) (icao : String) (t : PyDateTime) :
    Option Bytes :=
  fsRead fs (c.get_trace_path icao t)

/-- `Cache.put_trace`. -/
def Cache.put_trace (c : Cache) (fs : FileSystem) (icao : String) (t : PyDateTime)
    (data : Bytes) : FileSystem :=
  fsWrite fs (c.get_trace_path icao t) data

/-- Outcome of `requests.get` / `session.get`: a response with a status code and
a body, or a raised `requests.RequestException` (DNS, connect, timeout). -/
inductive FetchResult where
  | response (status_code : Nat) (content : Bytes)
  | requestException (cause : String)
deriving DecidableEq, Repr

/-- The exception values `historical.py` can raise from a download call.
The source defines `ADSBClientError → DownloadError → HTTPError`; `HTTPError`
stores `url` and `status_code` and a message, while the transport-failure path
raises the parent class `DownloadError` itself, which carries only its message.
No other subclass of `DownloadError` exists in the source. -/
inductive RaisedError where
  | httpError (url : String) (status_code : Nat) (message : String)
  | downloadError (message : String)
deriving DecidableEq, Repr

/-- The `url` attribute of a raised error: `HTTPError.__init__` stores
`self.url`; a plain `DownloadError` has no such attribute. -/
def RaisedError.urlField : RaisedError → Option String
  | .httpError url _ _ => some url
  | .downloadError _ => none

/-- The `status_code` attribute of a raised error, when present. -/
def RaisedError.statusField : RaisedError → Option Nat
  | .httpError _ status _ => some status
  | .downloadError _ => none

/-- The message of a raised error (`str(e)`). -/
def RaisedError.messageField : RaisedError → String
  | .httpError _ _ message => message
  | .downloadError message => message

/-- What one download call produced: the returned bytes or the raised error,
the filesystem afterwards, and how many network requests were issued. -/
structure DownloadOutcome where
  result : Except RaisedError Bytes
  fs : FileSystem
  network_calls : Nat
deriving Repr

/-- The heatmap URL built by `download_heatmap`:
`{base}{YYYY/MM/DD}/heatmap/{bucket}.bin.ttf`. -/
def heatmapUrl (t : PyDateTime) : String :=
  ADSBEXCHANGE_HISTORICAL_DATA_URL ++ strftimeYMD t ++ "/heatmap/" ++
    toString (heatmapBucket t) ++ ".bin.ttf"

/-- The trace URL built by `download_traces`:
`{base}{YYYY/MM/DD}/traces/{icao.lower()[-2:]}/trace_full_{icao.lower()}.json`. -/
def traceUrl (icao : String) (t : PyDateTime) : String :=
  ADSBEXCHANGE_HISTORICAL_DATA_URL ++ strftimeYMD t ++ "/traces/" ++
    lastTwoChars (pyLower icao) ++ "/trace_full_" ++ pyLower icao ++ ".json"

/-- The network phase of `download_heatmap` (source lines 69-93): build the URL,
issue one GET, store on 200, raise `HTTPError` on a non-200 status, and raise a
plain `DownloadError` on a `requests.RequestException`. -/
def downloadHeatmapFetch (t : PyDateTime) (effective_cache : Option Cache)
    (fs : FileSystem) (fetch : String → FetchResult) : DownloadOutcome :=
  let url := heatmapUrl t
  match fetch url with
  | .response status content =>
    if status = 200 then
      match effective_cache with
      | some c => ⟨.ok content, c.put_heatmap fs t content, 1⟩
      | none => ⟨.ok content, fs, 1⟩
    else
      ⟨.error (.httpError url status
        ("Failed to download heatmap " ++ url ++ ": " ++ toString status)), fs, 1⟩
  | .requestException cause =>
    ⟨.error (.downloadError
      ("Network error downloading heatmap from " ++ url ++ ": " ++ cause)), fs, 1⟩

/-- `download_heatmap(timestamp, timeout, cache)`: resolve the effective cache
(explicit argument, else the global cache), consult it first, and fetch on a
miss. The `fetch` oracle stands for `requests.get` with its timeout. -/
def download_heatmap (t : PyDateTime) (cache global_cache : Option Cache)
    (fs : FileSystem) (fetch : String → FetchResult) : DownloadOutcome :=
  let effective_cache := match cache with
    | some c => some c
    | none => global_cache
  match effective_cache with
  | some c =>
    match c.get_heatmap fs t with
    | some cached_data => ⟨.ok cached_data, fs, 0⟩
    | none => downloadHeatmapFetch t effective_cache fs fetch
  | none => downloadHeatmapFetch t none fs fetch

/-- The network phase of `download_traces` (source lines 292-322), identical in
shape to the heatmap one but on the trace URL and trace cache key. -/
def downloadTracesFetch (icao : String) (t : PyDateTime)
    (effective_cache : Option Cache) (fs : FileSystem)
    (fetch : String → FetchResult) : DownloadOutcome :=
  let url := traceUrl icao t
  match fetch url with
  | .response status content =>
    if status = 200 then
      match effective_cache with
      | some c => ⟨.ok content, c.put_trace fs icao t content, 1⟩
      | none => ⟨.ok content, fs, 1⟩
    else
      ⟨.error (.httpError url status
        ("Failed to download trace " ++ url ++ ": " ++ toString status)), fs, 1⟩
  | .requestException cause =>
    ⟨.error (.downloadError
      ("Network error downloading trace for " ++ icao ++ " from " ++ url ++
        ": " ++ cause)), fs, 1⟩

/-- `download_traces(icao, timestamp, cache)`: same cache-first shape as
`download_heatmap`, over the trace key. -/
def download_traces (icao : String) (t : PyDateTime)
    (cache global_cache : Option Cache) (fs : FileSystem)
    (fetch : String → FetchResult) : DownloadOutcome :=
  let effective_cache := match cache with
    | some c => some c
    | none => global_cache
  match effective_cache with
  | some c =>
    match c.get_trace fs icao t with
    | some cached_data => ⟨.ok cached_data, fs, 0⟩
    | none => downloadTracesFetch icao t effective_cache fs fetch
  | none => downloadTracesFetch icao t none fs fetch

/-- The `alt` field of a decoded positional record: an altitude number, the
ground-state marker string, or `None`. -/
abbrev AltValue := Option (Int ⊕ String)

/-- One record of the opaque heatmap decoder's output: the three variants
`HeatEntry`, `CallsignEntry`, `TimestampSeparator` of `HeatmapDecoder`. -/
inductive HeatmapRecord where
  | heatEntry (hex_id : String) (lat lon : ℝ) (alt : AltValue)
      (ground_speed : Option ℝ)
  | callsignEntry (hex_id : String) (callsign : Option String)
  | timestampSeparator (timestamp : PyDateTime)

/-- `FullHeatmapEntry`: a positional record joined with a resolved timestamp
and a resolved callsign (`historical.py` lines 143-166). -/
structure FullHeatmapEntry where
  timestamp : Option PyDateTime
  callsign : Option String
  hex_id : String
  lat : ℝ
  lon : ℝ
  alt : AltValue
  ground_speed : Option ℝ

/-- The truncation `timestamp.replace(minute=(minute // 30) * 30, second=0,
microsecond=0)` performed by `get_heatmap_entries`. -/
def truncateToBucket (t : PyDateTime) : PyDateTime :=
  { t with minute := t.minute / 30 * 30, second := 0, microsecond := 0 }

/-- The loop body of `get_heatmap_entries`, with its two pieces of threaded
state: the id→callsign map (an assoc list, newest assignment first, matching
`dict` update/`dict.get`) and the current bucket timestamp. -/
def joinLoop (icao_callsigns_map : List (String × Option String))
    (current_timestamp : PyDateTime) :
    List HeatmapRecord → List FullHeatmapEntry
  | [] => []
  | .callsignEntry hex_id callsign :: rest =>
    joinLoop ((hex_id, callsign) :: icao_callsigns_map) current_timestamp rest
  | .timestampSeparator ts :: rest =>
    joinLoop icao_callsigns_map ts rest
  | .heatEntry hex_id lat lon alt ground_speed :: rest =>
    { timestamp := some current_timestamp
      callsign := ((icao_callsigns_map.lookup hex_id).getD none)
      hex_id := hex_id, lat := lat, lon := lon, alt := alt
      ground_speed := ground_speed } :: joinLoop icao_callsigns_map current_timestamp rest

/-- `get_heatmap_entries(timestamp)`: the decoder is opaque, so the decoded
record sequence is a parameter; the join starts from an empty callsign map and
the query timestamp truncated to its 30-minute bucket. -/
def get_heatmap_entries (t : PyDateTime) (records : List HeatmapRecord) :
    List FullHeatmapEntry :=
  joinLoop [] (truncateToBucket t) records

/-- `math.radians(d)`. -/
noncomputable def radians (d : ℝ) : ℝ := d * Real.pi / 180

/-- `math.atan2(y, x)` over the reals (the C library convention; only the
`0 < x` branch is exercised by the haversine formula away from antipodes). -/
noncomputable def atan2 (y x : ℝ) : ℝ :=
  if 0 < x then Real.arctan (y / x)
  else if x < 0 ∧ 0 ≤ y then Real.arctan (y / x) + Real.pi
  else if x < 0 ∧ y < 0 then Real.arctan (y / x) - Real.pi
  else if x = 0 ∧ 0 < y then Real.pi / 2
  else if x = 0 ∧ y < 0 then -(Real.pi / 2)
  else 0

/-- `haversine_distance(coord1, coord2)` (`historical.py` lines 108-129). -/
noncomputable def haversine_distance (coord1 coord2 : ℝ × ℝ) : ℝ :=
  let lat1 := coord1.1
  let lon1 := coord1.2
  let lat2 := coord2.1
  let lon2 := coord2.2
  let lat1_rad := radians lat1
  let lat2_rad := radians lat2
  let delta_lat := radians (lat2 - lat1)
  let delta_lon := radians (lon2 - lon1)
  let a := Real.sin (delta_lat / 2) ^ 2 +
    Real.cos lat1_rad * Real.cos lat2_rad * Real.sin (delta_lon / 2) ^ 2
  let c := 2 * atan2 (Real.sqrt a) (Real.sqrt (1 - a))
  6371000.0 * c

/-- `is_valid_location(valid_location, radius, location)`. -/
noncomputable def is_valid_location (valid_location : ℝ × ℝ) (radius : ℝ)
    (location : ℝ × ℝ) : Prop :=
  haversine_distance valid_location location ≤ radius

/-- The bounding-box test of `get_zoned_heatmap_entries`:
`min_lat <= entry.lat <= max_lat and min_lon <= entry.lon <= max_lon` with
`lat_delta = radius / 111320` and
`lon_delta = radius / (111320 * cos(radians(latitude)))`. -/
noncomputable def inBoundingBox (latitude longitude radius lat lon : ℝ) : Prop :=
  latitude - radius / 111320.0 ≤ lat ∧ lat ≤ latitude + radius / 111320.0 ∧
    longitude - radius / (111320.0 * Real.cos (radians latitude)) ≤ lon ∧
    lon ≤ longitude + radius / (111320.0 * Real.cos (radians latitude))

/-- The inlined haversine computation of `get_zoned_heatmap_entries`
(lines 229-235): `delta_lat = radians(lat) - radians(latitude)` instead of
`radians(lat - latitude)`, same formula otherwise. -/
noncomputable def zonedDistance (latitude longitude lat lon : ℝ) : ℝ :=
  let center_lat_rad := radians latitude
  let cos_center_lat := Real.cos center_lat_rad
  let lat_rad := radians lat
  let delta_lat := lat_rad - center_lat_rad
  let delta_lon := radians (lon - longitude)
  let a := Real.sin (delta_lat / 2) ^ 2 +
    cos_center_lat * Real.cos lat_rad * Real.sin (delta_lon / 2) ^ 2
  6371000.0 * 2 * atan2 (Real.sqrt a) (Real.sqrt (1 - a))

open Classical in
/-- `get_zoned_heatmap_entries(timestamp, latitude, longitude, radius)`: filter
the joined entries, skipping a record that fails the bounding box and yielding
a survivor iff its inlined haversine distance is at most `radius`. -/
noncomputable def get_zoned_heatmap_entries (t : PyDateTime)
    (records : List HeatmapRecord) (latitude longitude radius : ℝ) :
    List FullHeatmapEntry :=
  (get_heatmap_entries t records).filter (fun entry =>
    decide (inBoundingBox latitude longitude radius entry.lat entry.lon) &&
    decide (zonedDistance latitude longitude entry.lat entry.lon ≤ radius))

/-- String prefix test, character by character (used to say "this path lies
under that directory"). -/
def strIsPrefixOf (p s : String) : Bool :=
  p.data.isPrefixOf s.data

/-- `Cache.clear`: `shutil.rmtree(self._cache_path)` then recreate the empty
root — every file whose path lies under the root directory is deleted. -/
def Cache.clear (c : Cache) (fs : FileSystem) : FileSystem :=
  fs.filter (fun kv => !(strIsPrefixOf (c.cache_path ++ "/") kv.1))

/-- The module-level state of `cache.py`: the filesystem together with the
process-wide `_global_cache` slot. -/
structure GlobalState where
  fs : FileSystem
  global_cache : Option Cache
deriving Repr

/-- `set_cache(cache_path)`: construct `Cache(cache_path)` (its `__init__` only
creates the directory, touching no file) and install it, returning it. -/
def set_cache (st : GlobalState) (cache_path : String) : Cache × GlobalState :=
  (⟨cache_path⟩, { st with global_cache := some ⟨cache_path⟩ })

/-- `get_cache()`. -/
def get_cache (st : GlobalState) : Option Cache :=
  st.global_cache

/-- `clear_cache()`: clear the installed instance's storage (when one is
installed), then drop the reference. -/
def clear_cache (st : GlobalState) : GlobalState :=
  match st.global_cache with
  | some c => { fs := c.clear st.fs, global_cache := none }
  | none => { st with global_cache := none }

/-- `disable_cache()`: drop the reference without touching storage. -/
def disable_cache (st : GlobalState) : GlobalState :=
  { st with global_cache := none }

/-!  Spec-side helpers used to state the join claims (C8): the most recent
separator timestamp and the most recent callsign assignment for an id in a
prefix of the decoded record sequence. -/

/-- The timestamp of the most recent `TimestampSeparator` in a record list, if
any. -/
def lastSeparator (l : List HeatmapRecord) : Option PyDateTime :=
  l.foldl (fun acc r => match r with
    | .timestampSeparator ts => some ts
    | _ => acc) none

/-- The most recent callsign assignment for `hex_id` in a record list: `none`
both when no assignment was seen and when the last assignment stored `None`,
matching `dict.get`'s collapse of the two cases. -/
def lastCallsignFor (hex_id : String) (l : List HeatmapRecord) : Option String :=
  l.foldl (fun acc r => match r with
    | .callsignEntry h cs => if h = hex_id then cs else acc
    | _ => acc) none

/-- The claim's description of the join, stated non-operationally: each
positional record, taken with the prefix of records decoded before it, is
emitted with the prefix's last separator timestamp (default `t0`) and the
prefix's last callsign for its id. -/
def specJoin (t0 : PyDateTime) (seen : List HeatmapRecord) :
    List HeatmapRecord → List FullHeatmapEntry
  | [] => []
  | r :: rest =>
    match r with
    | .heatEntry hex_id lat lon alt ground_speed =>
      { timestamp := some ((lastSeparator seen).getD t0)
        callsign := lastCallsignFor hex_id seen
        hex_id := hex_id, lat := lat, lon := lon, alt := alt
        ground_speed := ground_speed } :: specJoin t0 (seen ++ [r]) rest
    | _ => specJoin t0 (seen ++ [r]) rest

/-- Is a decoded record a positional `HeatEntry`? -/
def HeatmapRecord.isHeat : HeatmapRecord → Bool
  | .heatEntry _ _ _ _ _ => true
  | _ => false

/-- The positional record a joined entry was built from: its `hex_id`, `lat`,
`lon`, `alt` and `ground_speed` fields, repackaged as a decoder record. -/
def sourceRecord (e : FullHeatmapEntry) : HeatmapRecord :=
  .heatEntry e.hex_id e.lat e.lon e.alt e.ground_speed

open Classical in
/-- The zonal filter of `get_zoned_heatmap_entries`, read off a decoder record:
positional records pass iff they pass the bounding box and the distance check,
and auxiliary records never pass. -/
noncomputable def zoneKeep (latitude longitude radius : ℝ) : HeatmapRecord → Bool :=
  fun r => match r with
  | .heatEntry _ lat lon _ _ =>
    decide (inBoundingBox latitude longitude radius lat lon) &&
    decide (zonedDistance latitude longitude lat lon ≤ radius)
  | _ => false

/-! ## Supporting lemmas -/

/-- Appending one record changes `lastSeparator` only when it is a separator. -/
theorem lastSeparator_append (seen : List HeatmapRecord) (r : HeatmapRecord) :
    lastSeparator (seen ++ [r]) =
      match r with
      | .timestampSeparator ts => some ts
      | _ => lastSeparator seen := by
  unfold lastSeparator
  rw [List.foldl_append]
  cases r <;> rfl

/-- Appending one record changes `lastCallsignFor` only when it is a callsign
assignment for the looked-up id. -/
theorem lastCallsignFor_append (hex_id : String) (seen : List HeatmapRecord)
    (r : HeatmapRecord) :
    lastCallsignFor hex_id (seen ++ [r]) =
      match r with
      | .callsignEntry h cs => if h = hex_id then cs else lastCallsignFor hex_id seen
      | _ => lastCallsignFor hex_id seen := by
  unfold lastCallsignFor
  rw [List.foldl_append]
  cases r <;> rfl

/-- The operational join loop agrees with the prefix-based description: when
the threaded state summarizes the records already seen, processing the rest
emits exactly what the prefix-based description emits. -/
theorem joinLoop_eq_specJoin (l : List HeatmapRecord)
    (m : List (String × Option String)) (cur t0 : PyDateTime)
    (seen : List HeatmapRecord)
    (hcur : cur = (lastSeparator seen).getD t0)
    (hmap : ∀ h, (m.lookup h).getD none = lastCallsignFor h seen) :
    joinLoop m cur l = specJoin t0 seen l := by
  induction l generalizing m cur seen with
  | nil => rfl
  | cons r rest ih =>
    cases r with
    | heatEntry hex_id lat lon alt gs =>
      show _ :: joinLoop m cur rest = _ :: specJoin t0 (seen ++ [_]) rest
      congr 1
      · rw [hcur, hmap hex_id]
      · refine ih m cur (seen ++ [.heatEntry hex_id lat lon alt gs]) ?_ ?_
        · rw [lastSeparator_append]; exact hcur
        · intro h; rw [lastCallsignFor_append]; exact hmap h
    | callsignEntry h2 cs =>
      show joinLoop ((h2, cs) :: m) cur rest = specJoin t0 (seen ++ [_]) rest
      refine ih ((h2, cs) :: m) cur (seen ++ [.callsignEntry h2 cs]) ?_ ?_
      · rw [lastSeparator_append]; exact hcur
      · intro h
        rw [lastCallsignFor_append]
        by_cases he : h2 = h
        · subst he
          simp [List.lookup]
        · have hb : (h == h2) = false := beq_eq_false_iff_ne.mpr (Ne.symm he)
          simp only [List.lookup, hb]
          rw [if_neg he]
          exact hmap h
    | timestampSeparator ts =>
      show joinLoop m ts rest = specJoin t0 (seen ++ [_]) rest
      refine ih m ts (seen ++ [.timestampSeparator ts]) ?_ ?_
      · rw [lastSeparator_append]; rfl
      · intro h; rw [lastCallsignFor_append]; exact hmap h

/-- The join emits, in order, exactly the positional records of its input,
with every positional field unchanged. -/
theorem joinLoop_map_sourceRecord (l : List HeatmapRecord)
    (m : List (String × Option String)) (cur : PyDateTime) :
    (joinLoop m cur l).map sourceRecord = l.filter HeatmapRecord.isHeat := by
  induction l generalizing m cur with
  | nil => rfl
  | cons r rest ih =>
    cases r with
    | heatEntry hex_id lat lon alt gs =>
      show sourceRecord _ :: (joinLoop m cur rest).map sourceRecord = _
      rw [ih]
      rfl
    | callsignEntry h2 cs =>
      show (joinLoop ((h2, cs) :: m) cur rest).map sourceRecord = _
      rw [ih]
      rfl
    | timestampSeparator ts =>
      show (joinLoop m ts rest).map sourceRecord = _
      rw [ih]
      rfl

/-- Reading a key right after writing it returns the written bytes. -/
theorem fsRead_fsWrite_same (fs : FileSystem) (path : String) (data : Bytes) :
    fsRead (fsWrite fs path data) path = some data := by
  simp [fsRead, fsWrite, List.find?]

/-- Reading an unrelated key after a write falls through to the old filesystem. -/
theorem fsRead_fsWrite_other (fs : FileSystem) (path path' : String) (data : Bytes)
    (h : path' ≠ path) : fsRead (fsWrite fs path data) path' = fsRead fs path' := by
  have hb : (path == path') = false := beq_eq_false_iff_ne.mpr (Ne.symm h)
  simp [fsRead, fsWrite, List.find?, hb]

/-- The inlined distance of `get_zoned_heatmap_entries` equals
`haversine_distance` from the center to the entry: over the reals,
`radians(lat) - radians(latitude)` is `radians(lat - latitude)`. -/
theorem zonedDistance_eq_haversine (latitude longitude lat lon : ℝ) :
    zonedDistance latitude longitude lat lon =
      haversine_distance (latitude, longitude) (lat, lon) := by
  simp only [zonedDistance, haversine_distance]
  have h1 : radians lat - radians latitude = radians (lat - latitude) := by
    unfold radians; ring
  rw [h1]
  ring

/-- On the haversine formula's own output shape, `atan2` recovers the half
central angle: for `0 ≤ x < π/2`,
`atan2 (√(sin² x)) (√(1 - sin² x)) = x`. -/
theorem atan2_sin_cos (x : ℝ) (hx0 : 0 ≤ x) (hx : x < Real.pi / 2) :
    atan2 (Real.sqrt (Real.sin x ^ 2)) (Real.sqrt (1 - Real.sin x ^ 2)) = x := by
  have hπ := Real.pi_pos
  have hsin : Real.sqrt (Real.sin x ^ 2) = Real.sin x :=
    Real.sqrt_sq (Real.sin_nonneg_of_nonneg_of_le_pi hx0 (by linarith))
  have hcossq : 1 - Real.sin x ^ 2 = Real.cos x ^ 2 := by
    have := Real.sin_sq_add_cos_sq x
    linarith
  have hcospos : 0 < Real.cos x :=
    Real.cos_pos_of_mem_Ioo ⟨by linarith, hx⟩
  have hcos : Real.sqrt (1 - Real.sin x ^ 2) = Real.cos x := by
    rw [hcossq]
    exact Real.sqrt_sq hcospos.le
  rw [hsin, hcos]
  unfold atan2
  rw [if_pos hcospos, ← Real.tan_eq_sin_div_cos]
  exact Real.arctan_tan (by linarith) hx

/-- Along a meridian from the origin, the haversine distance is exactly the
Earth radius times the central angle. -/
theorem haversine_dist_lat_axis (lat2 : ℝ) (h0 : 0 ≤ radians lat2 / 2)
    (h2 : radians lat2 / 2 < Real.pi / 2) :
    haversine_distance (0, 0) (lat2, 0) = 6371000 * radians lat2 := by
  simp only [haversine_distance]
  have e0 : radians 0 = 0 := by unfold radians; ring
  have e1 : lat2 - 0 = lat2 := by ring
  have e2 : (0 : ℝ) - 0 = 0 := by ring
  simp only [e1, e2, e0, zero_div, Real.sin_zero, Real.cos_zero, one_mul]
  have e3 : Real.sin (radians lat2 / 2) ^ 2 + Real.cos (radians lat2) * 0 ^ 2 =
      Real.sin (radians lat2 / 2) ^ 2 := by ring
  rw [e3, atan2_sin_cos (radians lat2 / 2) h0 h2]
  ring

/-! ## Claim theorems -/

/-- C2: the heatmap cache key is `heatmaps/{YYYY}/{MM}/{DD}/{bucket}.bin.ttf`
with `bucket = hour*2 + minute // 30`; the bucket is at most 47 for a valid
time of day, any two timestamps with the same year/month/day and the same
bucket give the identical path, and `2023-06-15T14:45` maps to
`.../2023/06/15/29.bin.ttf`. -/
theorem C2_heatmap_cache_key (root : String) (t u : PyDateTime)
    (hh : t.hour < 24) (hm : t.minute < 60) :
    heatmapBucket t ≤ 47 ∧
    (u.year = t.year → u.month = t.month → u.day = t.day →
      heatmapBucket u = heatmapBucket t →
      Cache.get_heatmap_path ⟨root⟩ u = Cache.get_heatmap_path ⟨root⟩ t) ∧
    Cache.get_heatmap_path ⟨"cache"⟩ ⟨2023, 6, 15, 14, 45, 0, 0⟩ =
      "cache/heatmaps/2023/06/15/29.bin.ttf" := by
  refine ⟨?_, ?_, by decide⟩
  · unfold heatmapBucket
    omega
  · intro h1 h2 h3 h4
    simp [Cache.get_heatmap_path, strftimeYMD, h1, h2, h3, h4]

/-- Witness for C2 at `2023-06-15T14:45`. -/
theorem C2_heatmap_cache_key_witness :
    heatmapBucket ⟨2023, 6, 15, 14, 45, 0, 0⟩ ≤ 47 ∧
    Cache.get_heatmap_path ⟨"cache"⟩ ⟨2023, 6, 15, 14, 45, 0, 0⟩ =
      "cache/heatmaps/2023/06/15/29.bin.ttf" := by
  have h := C2_heatmap_cache_key "cache" ⟨2023, 6, 15, 14, 45, 0, 0⟩
    ⟨2023, 6, 15, 14, 45, 0, 0⟩ (by decide) (by decide)
  exact ⟨h.1, h.2.2⟩

/-- C3: the trace cache key is
`traces/{YYYY}/{MM}/{DD}/{subfolder}/trace_full_{lower(id)}.json` with the
subfolder the lowercase last two characters of the id; an id shorter than two
characters yields the whole lowercased id as subfolder, and the time of day
never affects the path. Concretely, `"ABC123"` on `2023-06-15` maps to
`.../2023/06/15/23/trace_full_abc123.json` and `"A"` to subfolder `"a"` and
file `trace_full_a.json`. -/
theorem C3_trace_cache_key (root icao : String) (t u : PyDateTime) :
    (u.year = t.year → u.month = t.month → u.day = t.day →
      Cache.get_trace_path ⟨root⟩ icao u = Cache.get_trace_path ⟨root⟩ icao t) ∧
    (icao.length < 2 → lastTwoChars (pyLower icao) = pyLower icao) ∧
    Cache.get_trace_path ⟨"cache"⟩ "ABC123" ⟨2023, 6, 15, 14, 45, 17, 3⟩ =
      "cache/traces/2023/06/15/23/trace_full_abc123.json" ∧
    Cache.get_trace_path ⟨"cache"⟩ "A" ⟨2023, 6, 15, 14, 45, 17, 3⟩ =
      "cache/traces/2023/06/15/a/trace_full_a.json" := by
  refine ⟨?_, ?_, by decide, by decide⟩
  · intro h1 h2 h3
    simp [Cache.get_trace_path, strftimeYMD, h1, h2, h3]
  · intro hshort
    have h2 : (pyLower icao).data.length = icao.length := by
      show (icao.data.map Char.toLower).length = icao.data.length
      exact List.length_map _ _
    have hlen : (pyLower icao).data.length - 2 = 0 := by omega
    unfold lastTwoChars
    rw [hlen, List.drop_zero]

/-- Witness for C3: time-of-day irrelevance at the 6-character id `"ABC123"`
with two different times of day on the same date, and the short-id subfolder
at id `"A"`. -/
theorem C3_trace_cache_key_witness :
    Cache.get_trace_path ⟨"cache"⟩ "ABC123" ⟨2023, 6, 15, 3, 4, 5, 6⟩ =
      Cache.get_trace_path ⟨"cache"⟩ "ABC123" ⟨2023, 6, 15, 14, 45, 17, 3⟩ ∧
    lastTwoChars (pyLower "A") = pyLower "A" ∧
    Cache.get_trace_path ⟨"cache"⟩ "A" ⟨2023, 6, 15, 14, 45, 17, 3⟩ =
      "cache/traces/2023/06/15/a/trace_full_a.json" := by
  have h1 := C3_trace_cache_key "cache" "ABC123" ⟨2023, 6, 15, 14, 45, 17, 3⟩
    ⟨2023, 6, 15, 3, 4, 5, 6⟩
  have h2 := C3_trace_cache_key "cache" "A" ⟨2023, 6, 15, 14, 45, 17, 3⟩
    ⟨2023, 6, 15, 14, 45, 17, 3⟩
  exact ⟨h1.1 rfl rfl rfl, h2.2.1 (by decide), h2.2.2.2⟩

/-- C1: with an effective cache, a download is cache-first with write-through
on miss, for heatmaps and for traces: a cached key returns the cached bytes
with zero network calls and an unchanged filesystem; an uncached key whose
fetch returns 200 with body `B` makes exactly one network call, writes `B`
under the same key, returns `B`, and a second call with the same key then
returns `B` with zero network calls. -/
theorem C1_cache_first_write_through (t : PyDateTime) (icao : String) (c : Cache)
    (g : Option Cache) (fs : FileSystem) (fetch : String → FetchResult) (B : Bytes) :
    (∀ b, c.get_heatmap fs t = some b →
      download_heatmap t (some c) g fs fetch = ⟨.ok b, fs, 0⟩) ∧
    (c.get_heatmap fs t = none → fetch (heatmapUrl t) = .response 200 B →
      download_heatmap t (some c) g fs fetch = ⟨.ok B, c.put_heatmap fs t B, 1⟩ ∧
      c.get_heatmap (c.put_heatmap fs t B) t = some B ∧
      download_heatmap t (some c) g (c.put_heatmap fs t B) fetch =
        ⟨.ok B, c.put_heatmap fs t B, 0⟩) ∧
    (∀ b, c.get_trace fs icao t = some b →
      download_traces icao t (some c) g fs fetch = ⟨.ok b, fs, 0⟩) ∧
    (c.get_trace fs icao t = none → fetch (traceUrl icao t) = .response 200 B →
      download_traces icao t (some c) g fs fetch =
        ⟨.ok B, c.put_trace fs icao t B, 1⟩ ∧
      c.get_trace (c.put_trace fs icao t B) icao t = some B ∧
      download_traces icao t (some c) g (c.put_trace fs icao t B) fetch =
        ⟨.ok B, c.put_trace fs icao t B, 0⟩) := by
  refine ⟨?_, ?_, ?_, ?_⟩
  · intro b hb
    simp [download_heatmap, hb]
  · intro hmiss hfetch
    have hput : c.get_heatmap (c.put_heatmap fs t B) t = some B :=
      fsRead_fsWrite_same fs (c.get_heatmap_path t) B
    refine ⟨?_, hput, ?_⟩
    · simp [download_heatmap, hmiss, downloadHeatmapFetch, hfetch]
    · simp [download_heatmap, hput]
  · intro b hb
    simp [download_traces, hb]
  · intro hmiss hfetch
    have hput : c.get_trace (c.put_trace fs icao t B) icao t = some B :=
      fsRead_fsWrite_same fs (c.get_trace_path icao t) B
    refine ⟨?_, hput, ?_⟩
    · simp [download_traces, hmiss, downloadTracesFetch, hfetch]
    · simp [download_traces, hput]

/-- Witness for C1: a fresh key, a 200 response with body `[88]` (`b"X"`): one
network call and a cache write, then a second call with zero network calls. -/
theorem C1_cache_first_write_through_witness :
    download_heatmap ⟨2023, 6, 15, 14, 45, 0, 0⟩ (some ⟨"cache"⟩) none []
        (fun _ => .response 200 [88]) =
      ⟨.ok [88], Cache.put_heatmap ⟨"cache"⟩ [] ⟨2023, 6, 15, 14, 45, 0, 0⟩ [88], 1⟩ ∧
    download_heatmap ⟨2023, 6, 15, 14, 45, 0, 0⟩ (some ⟨"cache"⟩) none
        (Cache.put_heatmap ⟨"cache"⟩ [] ⟨2023, 6, 15, 14, 45, 0, 0⟩ [88])
        (fun _ => .response 200 [88]) =
      ⟨.ok [88], Cache.put_heatmap ⟨"cache"⟩ [] ⟨2023, 6, 15, 14, 45, 0, 0⟩ [88], 0⟩ := by
  have h := (C1_cache_first_write_through ⟨2023, 6, 15, 14, 45, 0, 0⟩ "abc123"
    ⟨"cache"⟩ none [] (fun _ => .response 200 [88]) [88]).2.1 rfl rfl
  exact ⟨h.1, h.2.2⟩

/-- C6: writing bytes under a key of either kind and then reading the same key
returns byte-identical content, whatever the prior filesystem contents. -/
theorem C6_write_read_roundtrip (c : Cache) (fs : FileSystem) (t : PyDateTime)
    (icao : String) (data : Bytes) :
    (c.get_heatmap (c.put_heatmap fs t data) t = some data) ∧
    (c.get_trace (c.put_trace fs icao t data) icao t = some data) :=
  ⟨fsRead_fsWrite_same fs (c.get_heatmap_path t) data,
    fsRead_fsWrite_same fs (c.get_trace_path icao t) data⟩

/-- C4: a download whose fetch returns a status other than 200 on an uncached
key raises an `HTTPError` carrying that URL and status code, its message
mentions the failing URL, no cache write occurs (the filesystem is unchanged),
and exactly one network call was made — for heatmaps and for traces. -/
theorem C4_non_200_http_error (t : PyDateTime) (icao : String) (c : Cache)
    (g : Option Cache) (fs : FileSystem) (fetch : String → FetchResult)
    (status : Nat) (content : Bytes) (hstatus : status ≠ 200) :
    (c.get_heatmap fs t = none → fetch (heatmapUrl t) = .response status content →
      download_heatmap t (some c) g fs fetch =
        ⟨.error (.httpError (heatmapUrl t) status
          ("Failed to download heatmap " ++ heatmapUrl t ++ ": " ++ toString status)),
          fs, 1⟩ ∧
      ∃ pre post, ("Failed to download heatmap " ++ heatmapUrl t ++ ": " ++
        toString status) = pre ++ heatmapUrl t ++ post) ∧
    (c.get_trace fs icao t = none → fetch (traceUrl icao t) = .response status content →
      download_traces icao t (some c) g fs fetch =
        ⟨.error (.httpError (traceUrl icao t) status
          ("Failed to download trace " ++ traceUrl icao t ++ ": " ++ toString status)),
          fs, 1⟩ ∧
      ∃ pre post, ("Failed to download trace " ++ traceUrl icao t ++ ": " ++
        toString status) = pre ++ traceUrl icao t ++ post) := by
  constructor
  · intro hmiss hfetch
    constructor
    · simp [download_heatmap, hmiss, downloadHeatmapFetch, hfetch, hstatus]
    · exact ⟨"Failed to download heatmap ", ": " ++ toString status,
        by rw [String.append_assoc]⟩
  · intro hmiss hfetch
    constructor
    · simp [download_traces, hmiss, downloadTracesFetch, hfetch, hstatus]
    · exact ⟨"Failed to download trace ", ": " ++ toString status,
        by rw [String.append_assoc]⟩

/-- Witness for C4: a 404 response on a fresh heatmap key. -/
theorem C4_non_200_http_error_witness :
    download_heatmap ⟨2023, 6, 15, 14, 45, 0, 0⟩ (some ⟨"cache"⟩) none []
        (fun _ => .response 404 []) =
      ⟨.error (.httpError
        "https://globe.adsbexchange.com/globe_history/2023/06/15/heatmap/29.bin.ttf"
        404
        ("Failed to download heatmap https://globe.adsbexchange.com/globe_history/2023/06/15/heatmap/29.bin.ttf: 404")),
        [], 1⟩ := by
  have h := ((C4_non_200_http_error ⟨2023, 6, 15, 14, 45, 0, 0⟩ "abc123" ⟨"cache"⟩
    none [] (fun _ => .response 404 []) 404 [] (by decide)).1 rfl rfl).1
  exact h

/-- C5 counterexample: at a concrete transport failure, the raised error is a
plain `DownloadError` — the parent class itself — with no `url` attribute and
no `status_code` attribute, not a distinct `NetworkError` variant carrying the
URL; the source defines no `NetworkError` class at all. -/
theorem C5_counterexample :
    (download_heatmap ⟨2023, 6, 15, 14, 45, 0, 0⟩ none none []
        (fun _ => .requestException "connection timed out")).result =
      .error (.downloadError
        "Network error downloading heatmap from https://globe.adsbexchange.com/globe_history/2023/06/15/heatmap/29.bin.ttf: connection timed out") ∧
    RaisedError.urlField (.downloadError
      "Network error downloading heatmap from https://globe.adsbexchange.com/globe_history/2023/06/15/heatmap/29.bin.ttf: connection timed out") = none ∧
    RaisedError.statusField (.downloadError
      "Network error downloading heatmap from https://globe.adsbexchange.com/globe_history/2023/06/15/heatmap/29.bin.ttf: connection timed out") = none := by
  refine ⟨?_, rfl, rfl⟩
  rfl

/-- C5 amended: a transport-level failure on an uncached key raises the parent
class `DownloadError` itself (not an `HTTPError`, and not a distinct
`NetworkError` variant, which the source does not define); its message embeds
the failing URL and the cause's text, the filesystem is unchanged, and one
network call was made. -/
theorem C5_network_failure_raises_download_error (t : PyDateTime) (icao : String)
    (c : Cache) (g : Option Cache) (fs : FileSystem) (fetch : String → FetchResult)
    (cause : String) :
    (c.get_heatmap fs t = none → fetch (heatmapUrl t) = .requestException cause →
      download_heatmap t (some c) g fs fetch =
        ⟨.error (.downloadError
          ("Network error downloading heatmap from " ++ heatmapUrl t ++ ": " ++ cause)),
          fs, 1⟩ ∧
      ∃ pre post, ("Network error downloading heatmap from " ++ heatmapUrl t ++
        ": " ++ cause) = pre ++ heatmapUrl t ++ (post ++ cause)) ∧
    (c.get_trace fs icao t = none → fetch (traceUrl icao t) = .requestException cause →
      download_traces icao t (some c) g fs fetch =
        ⟨.error (.downloadError
          ("Network error downloading trace for " ++ icao ++ " from " ++
            traceUrl icao t ++ ": " ++ cause)),
          fs, 1⟩) := by
  constructor
  · intro hmiss hfetch
    constructor
    · simp [download_heatmap, hmiss, downloadHeatmapFetch, hfetch]
    · exact ⟨"Network error downloading heatmap from ", ": ",
        by rw [String.append_assoc]⟩
  · intro hmiss hfetch
    simp [download_traces, hmiss, downloadTracesFetch, hfetch]

/-- Reading a key that a key-based filter keeps is unaffected by the filter. -/
theorem fsRead_filter_keep (fs : FileSystem) (keep : String → Bool) (path : String)
    (h : keep path = true) :
    fsRead (fs.filter (fun kv => keep kv.1)) path = fsRead fs path := by
  induction fs with
  | nil => rfl
  | cons kv rest ih =>
    by_cases hk : kv.1 = path
    · have hkeep : keep kv.1 = true := by rw [hk]; exact h
      have hb : (kv.1 == path) = true := beq_iff_eq.mpr hk
      simp [List.filter_cons, hkeep, fsRead, List.find?, hb]
    · have hb : (kv.1 == path) = false := beq_eq_false_iff_ne.mpr hk
      by_cases hkeep : keep kv.1 = true
      · simpa [List.filter_cons, hkeep, fsRead, List.find?, hb] using ih
      · simp only [Bool.not_eq_true] at hkeep
        simpa [List.filter_cons, hkeep, fsRead, List.find?, hb] using ih

/-- C9 counterexample: install a cache and hold the returned instance
directly; after `clear_cache()` the bytes stored through the held instance are
no longer readable through it, so clearing the active reference does affect a
directly-held instance (the one that was installed). -/
theorem C9_counterexample :
    (set_cache ⟨[], none⟩ "root").1.get_heatmap
      ((set_cache ⟨[], none⟩ "root").1.put_heatmap (set_cache ⟨[], none⟩ "root").2.fs
        ⟨2023, 6, 15, 14, 45, 0, 0⟩ [1, 2]) ⟨2023, 6, 15, 14, 45, 0, 0⟩ = some [1, 2] ∧
    (set_cache ⟨[], none⟩ "root").1.get_heatmap
      (clear_cache ⟨(set_cache ⟨[], none⟩ "root").1.put_heatmap
          (set_cache ⟨[], none⟩ "root").2.fs ⟨2023, 6, 15, 14, 45, 0, 0⟩ [1, 2],
        (set_cache ⟨[], none⟩ "root").2.global_cache⟩).fs
      ⟨2023, 6, 15, 14, 45, 0, 0⟩ = none := by
  constructor <;> rfl

/-- C9 amended: `set_cache` installs a fresh instance while leaving the
filesystem — and hence every held instance's stored contents — untouched;
`disable_cache` only drops the reference; `clear_cache` clears the storage of
the currently installed instance, so a held instance is unaffected exactly
when its keys lie outside the active root (in particular the installed
instance itself loses its contents, as the counterexample shows). -/
theorem C9_active_cache_frame (st : GlobalState) (p path : String) (c : Cache) :
    (set_cache st p).2.fs = st.fs ∧
    (set_cache st p).1 = ⟨p⟩ ∧
    (set_cache st p).2.global_cache = some ⟨p⟩ ∧
    (disable_cache st).fs = st.fs ∧
    (disable_cache st).global_cache = none ∧
    (st.global_cache = some c → (clear_cache st).fs = c.clear st.fs) ∧
    (st.global_cache = some c → strIsPrefixOf (c.cache_path ++ "/") path = false →
      fsRead (clear_cache st).fs path = fsRead st.fs path) := by
  refine ⟨rfl, rfl, rfl, rfl, rfl, ?_, ?_⟩
  · intro hg
    simp [clear_cache, hg]
  · intro hg hout
    have hfs : (clear_cache st).fs = c.clear st.fs := by simp [clear_cache, hg]
    rw [hfs]
    unfold Cache.clear
    exact fsRead_filter_keep st.fs
      (fun s => !(strIsPrefixOf (c.cache_path ++ "/") s)) path (by simp [hout])

/-- Witness for the amended C9: an installed cache at root `"root"`, a stored
file outside that root, and a fresh root `"root2"`. -/
theorem C9_active_cache_frame_witness :
    (set_cache ⟨[("other/file", [7])], some ⟨"root"⟩⟩ "root2").2.fs =
      [("other/file", [7])] ∧
    (disable_cache ⟨[("other/file", [7])], some ⟨"root"⟩⟩).fs =
      [("other/file", [7])] ∧
    fsRead (clear_cache ⟨[("other/file", [7])], some ⟨"root"⟩⟩).fs "other/file" =
      fsRead [("other/file", [7])] "other/file" := by
  have h := C9_active_cache_frame ⟨[("other/file", [7])], some ⟨"root"⟩⟩
    "root2" "other/file" ⟨"root"⟩
  exact ⟨h.1, h.2.2.2.1, h.2.2.2.2.2.2 rfl (by decide)⟩

open Classical in
/-- C7 amended: the zoned sequence is exactly the in-order subsequence of the
full entry sequence whose members pass BOTH the flat-Earth bounding-box test
and the haversine distance test (Earth radius 6,371,000 m, `≤ radius`
inclusive); the inlined per-record distance equals `haversine_distance` from
the center. The bounding box is not merely a pre-filter: it can reject
records whose exact distance is within the radius (see the counterexample). -/
theorem C7_zoned_is_bbox_and_haversine_filter (t : PyDateTime)
    (records : List HeatmapRecord) (latitude longitude radius : ℝ) :
    get_zoned_heatmap_entries t records latitude longitude radius =
      (get_heatmap_entries t records).filter (fun e =>
        decide (inBoundingBox latitude longitude radius e.lat e.lon) &&
        decide (is_valid_location (latitude, longitude) radius (e.lat, e.lon))) ∧
    ∀ e, e ∈ get_zoned_heatmap_entries t records latitude longitude radius ↔
      (e ∈ get_heatmap_entries t records ∧
        inBoundingBox latitude longitude radius e.lat e.lon ∧
        haversine_distance (latitude, longitude) (e.lat, e.lon) ≤ radius) := by
  have hpt : ∀ e : FullHeatmapEntry,
      (decide (inBoundingBox latitude longitude radius e.lat e.lon) &&
        decide (zonedDistance latitude longitude e.lat e.lon ≤ radius)) =
      (decide (inBoundingBox latitude longitude radius e.lat e.lon) &&
        decide (is_valid_location (latitude, longitude) radius (e.lat, e.lon))) := by
    intro e
    have : (zonedDistance latitude longitude e.lat e.lon ≤ radius) =
        is_valid_location (latitude, longitude) radius (e.lat, e.lon) := by
      unfold is_valid_location
      rw [zonedDistance_eq_haversine]
    congr 1
    · exact decide_eq_decide.mpr (by rw [this])
  have hfilter : get_zoned_heatmap_entries t records latitude longitude radius =
      (get_heatmap_entries t records).filter (fun e =>
        decide (inBoundingBox latitude longitude radius e.lat e.lon) &&
        decide (is_valid_location (latitude, longitude) radius (e.lat, e.lon))) := by
    unfold get_zoned_heatmap_entries
    exact List.filter_congr (fun e _ => hpt e)
  refine ⟨hfilter, ?_⟩
  intro e
  rw [hfilter]
  simp only [List.mem_filter, Bool.and_eq_true, decide_eq_true_eq,
    is_valid_location, and_assoc]

open Classical in
/-- C7 counterexample: at center `(0, 0)` with radius 111,320 m, the record at
`(1.001, 0)` lies within the exact haversine radius, yet the bounding box
rejects it: the zoned sequence is empty while the haversine-only filter keeps
the record, so the zoned sequence is NOT the subsequence of entries within the
exact distance, and the pre-filter rejects records that pass the exact test. -/
theorem C7_counterexample :
    haversine_distance (0, 0) (1.001, 0) ≤ 111320 ∧
    ¬ inBoundingBox 0 0 111320 1.001 0 ∧
    get_zoned_heatmap_entries ⟨2023, 6, 15, 14, 45, 0, 0⟩
        [.heatEntry "abc123" 1.001 0 none none] 0 0 111320 = [] ∧
    (get_heatmap_entries ⟨2023, 6, 15, 14, 45, 0, 0⟩
        [.heatEntry "abc123" 1.001 0 none none]).filter
      (fun e => decide (is_valid_location (0, 0) 111320 (e.lat, e.lon))) =
      get_heatmap_entries ⟨2023, 6, 15, 14, 45, 0, 0⟩
        [.heatEntry "abc123" 1.001 0 none none] ∧
    get_heatmap_entries ⟨2023, 6, 15, 14, 45, 0, 0⟩
        [.heatEntry "abc123" 1.001 0 none none] ≠ [] := by
  have hπ := Real.pi_pos
  have h0 : (0 : ℝ) ≤ radians 1.001 / 2 := by
    unfold radians; positivity
  have h2 : radians 1.001 / 2 < Real.pi / 2 := by
    unfold radians; nlinarith
  have hdist : haversine_distance (0, 0) (1.001, 0) ≤ 111320 := by
    rw [haversine_dist_lat_axis 1.001 h0 h2]
    unfold radians
    nlinarith [Real.pi_lt_d6]
  have hbox : ¬ inBoundingBox 0 0 111320 1.001 0 := by
    unfold inBoundingBox
    intro h
    have h21 := h.2.1
    norm_num at h21
  have hvalid : is_valid_location (0, 0) 111320 ((1.001 : ℝ), (0 : ℝ)) := hdist
  refine ⟨hdist, hbox, ?_, ?_, ?_⟩
  · show (get_heatmap_entries _ _).filter _ = []
    rw [show get_heatmap_entries ⟨2023, 6, 15, 14, 45, 0, 0⟩
        [.heatEntry "abc123" 1.001 0 none none] =
      [{ timestamp := some ⟨2023, 6, 15, 14, 30, 0, 0⟩, callsign := none,
          hex_id := "abc123", lat := 1.001, lon := 0, alt := none,
          ground_speed := none }] from rfl]
    rw [List.filter_cons]
    rw [show (decide (inBoundingBox 0 0 111320 (1.001 : ℝ) (0 : ℝ))) = false from
      decide_eq_false hbox]
    simp
  · rw [show get_heatmap_entries ⟨2023, 6, 15, 14, 45, 0, 0⟩
        [.heatEntry "abc123" 1.001 0 none none] =
      [{ timestamp := some ⟨2023, 6, 15, 14, 30, 0, 0⟩, callsign := none,
          hex_id := "abc123", lat := 1.001, lon := 0, alt := none,
          ground_speed := none }] from rfl]
    rw [List.filter_cons]
    rw [show (decide (is_valid_location ((0 : ℝ), (0 : ℝ)) 111320
        ((1.001 : ℝ), (0 : ℝ)))) = true from decide_eq_true hvalid]
    rfl
  · rw [show get_heatmap_entries ⟨2023, 6, 15, 14, 45, 0, 0⟩
        [.heatEntry "abc123" 1.001 0 none none] =
      [{ timestamp := some ⟨2023, 6, 15, 14, 30, 0, 0⟩, callsign := none,
          hex_id := "abc123", lat := 1.001, lon := 0, alt := none,
          ground_speed := none }] from rfl]
    simp

/-- C8: every positional record is emitted joined with the timestamp of the
most recent separator seen before it in decode order (defaulting to the query
timestamp truncated to the start of its own 30-minute bucket) and the most
recently seen callsign assignment for its aircraft id (or absent); in
particular, a positional record arriving before any separator or callsign
record sees the initial bucket time and an absent callsign. -/
theorem C8_join_state_resolution (t : PyDateTime) (records rest : List HeatmapRecord)
    (hex_id : String) (lat lon : ℝ) (alt : AltValue) (gs : Option ℝ) :
    get_heatmap_entries t records = specJoin (truncateToBucket t) [] records ∧
    get_heatmap_entries t (.heatEntry hex_id lat lon alt gs :: rest) =
      { timestamp := some (truncateToBucket t), callsign := none,
        hex_id := hex_id, lat := lat, lon := lon, alt := alt, ground_speed := gs } ::
        joinLoop [] (truncateToBucket t) rest := by
  constructor
  · exact joinLoop_eq_specJoin records [] (truncateToBucket t) (truncateToBucket t)
      [] rfl (fun _ => rfl)
  · rfl

/-- C10: the join adds only the `timestamp` and `callsign` fields — projecting
each emitted entry back to its positional fields recovers, in order, exactly
the positional records of the decoded input, for the full sequence and for the
zoned sequence. -/
theorem C10_positional_fields_unchanged (t : PyDateTime)
    (records : List HeatmapRecord) (latitude longitude radius : ℝ) :
    (get_heatmap_entries t records).map sourceRecord =
      records.filter HeatmapRecord.isHeat ∧
    (get_zoned_heatmap_entries t records latitude longitude radius).map sourceRecord =
      (records.filter HeatmapRecord.isHeat).filter
        (zoneKeep latitude longitude radius) := by
  have hfull : (get_heatmap_entries t records).map sourceRecord =
      records.filter HeatmapRecord.isHeat :=
    joinLoop_map_sourceRecord records [] (truncateToBucket t)
  refine ⟨hfull, ?_⟩
  have hz : get_zoned_heatmap_entries t records latitude longitude radius =
      (get_heatmap_entries t records).filter
        (fun e => zoneKeep latitude longitude radius (sourceRecord e)) := rfl
  rw [hz, ← hfull, List.filter_map]
  rfl

/-- Witness for the amended C5 at a concrete timeout on a fresh key. -/
theorem C5_network_failure_witness :
    download_heatmap ⟨2023, 6, 15, 14, 45, 0, 0⟩ (some ⟨"cache"⟩) none []
        (fun _ => .requestException "connection timed out") =
      ⟨.error (.downloadError
        "Network error downloading heatmap from https://globe.adsbexchange.com/globe_history/2023/06/15/heatmap/29.bin.ttf: connection timed out"),
        [], 1⟩ := by
  exact ((C5_network_failure_raises_download_error ⟨2023, 6, 15, 14, 45, 0, 0⟩
    "abc123" ⟨"cache"⟩ none [] (fun _ => .requestException "connection timed out")
    "connection timed out").1 rfl rfl).1

end ADSB
